import Mathlib

/-!
Verification of the `RoR-Ts` sample program (`src/src/index.ts`).

The file embeds the semantically meaningful fragment of the sample:

* the class `Point` with its constructor `constructor(x?: number, y?: number)`,
  the method `draw()` printing `'X: ' + this.x + ', Y: ' + this.y`, and the
  method `getDistance(another: Point)` whose body is elided in the source
  (`// ...`) and is therefore modelled from the specification (Euclidean
  distance, `InvalidOperandError` on unset coordinates);
* the function `calculateTax(income: number, taxYear = 2022)`.

JavaScript numbers are modelled as exact rationals (`ℚ`); the optional
coordinates (`x?: number`) are modelled as `Option ℚ`, with `none` standing
for the JavaScript value `undefined`.  The real-valued square root of the
distance computation lives in `ℝ`.
-/

namespace RoRTs

/-- The `Point` class: fields `x: number` and `y: number`, both assigned from
optional constructor parameters, hence possibly `undefined` (`none`). -/
structure Point where
  x : Option ℚ
  y : Option ℚ
  deriving DecidableEq, Repr

/-- `constructor(x?: number, y?: number) { this.x = x; this.y = y; }`:
each field is set to the corresponding argument, `undefined` (`none`) when
the argument is omitted. -/
def mkPoint (x y : Option ℚ) : Point := ⟨x, y⟩

/-- JavaScript string conversion of a number, for the values occurring in the
sample: an integer-valued number prints without a decimal point. -/
def jsNumToString (q : ℚ) : String :=
  if q.den = 1 then toString q.num else toString q

/-- JavaScript string conversion of a possibly-`undefined` number, as used by
string concatenation with `+`: `undefined` prints as `"undefined"`. -/
def jsValToString : Option ℚ → String
  | none => "undefined"
  | some q => jsNumToString q

/-- The body of `draw`, which logs `"X: " + this.x + ", Y: " + this.y`: the
single line written to standard output. -/
def draw (p : Point) : String :=
  "X: " ++ jsValToString p.x ++ ", Y: " ++ jsValToString p.y

/-- The single error kind of the design: `InvalidOperandError`. -/
inductive JsError where
  | invalidOperandError
  deriving DecidableEq, Repr

/-- Running the body of `draw` on a receiver: it contains no assignment to
`this.x` or `this.y`, so the receiver state after the call is unchanged, and
the body cannot throw (string concatenation and `console.log` are total). -/
def drawRun (p : Point) : Point × Except JsError String :=
  (p, Except.ok (draw p))

/-- Modelled from the spec: the body of `getDistance(another: Point)` is
elided in the source (`// ...`); per the specification it returns the
Euclidean distance `sqrt((x1-x2)^2 + (y1-y2)^2)` and raises
`InvalidOperandError` when either operand has an unset coordinate. -/
noncomputable def getDistance (p another : Point) : Except JsError ℝ :=
  match p.x, p.y, another.x, another.y with
  | some x1, some y1, some x2, some y2 =>
      Except.ok (Real.sqrt (((x1 : ℝ) - (x2 : ℝ)) ^ 2 + ((y1 : ℝ) - (y2 : ℝ)) ^ 2))
  | _, _, _, _ => Except.error JsError.invalidOperandError

/-- Running the body of `getDistance` on a receiver and an argument: the body
assigns to neither point, so both are unchanged after the call. -/
noncomputable def getDistanceRun (p another : Point) :
    (Point × Point) × Except JsError ℝ :=
  ((p, another), getDistance p another)

/-- `function calculateTax(income: number, taxYear = 2022): number`. -/
def calculateTax (income : ℚ) (taxYear : ℚ) : ℚ :=
  if taxYear < 2022 then income * 1.2 else income * 1.3

/-- `calculateTax` called with a single argument: the default parameter
`taxYear = 2022` is used. -/
def calculateTaxDefault (income : ℚ) : ℚ :=
  calculateTax income 2022

/-- C1: for all fully-specified points `(x1, y1)` and `(x2, y2)`, the distance
operation returns the Euclidean distance `sqrt((x1-x2)^2 + (y1-y2)^2)`; in
particular for the points `(1, 2)` and `(4, 6)` it returns `5`. -/
theorem getDistance_euclidean :
    (∀ x1 y1 x2 y2 : ℚ,
      getDistance (mkPoint (some x1) (some y1)) (mkPoint (some x2) (some y2)) =
        Except.ok (Real.sqrt (((x1 : ℝ) - x2) ^ 2 + ((y1 : ℝ) - y2) ^ 2))) ∧
    getDistance (mkPoint (some 1) (some 2)) (mkPoint (some 4) (some 6)) =
      Except.ok (5 : ℝ) := by
  constructor
  · intro x1 y1 x2 y2
    rfl
  · show Except.ok
        (Real.sqrt ((((1:ℚ):ℝ) - ((4:ℚ):ℝ)) ^ 2 + (((2:ℚ):ℝ) - ((6:ℚ):ℝ)) ^ 2)) = _
    norm_num
    rw [show ((25:ℝ)) = 5 ^ 2 by norm_num, Real.sqrt_sq (by norm_num)]

/-- C2: the distance operation raises `InvalidOperandError` exactly when at
least one coordinate of either operand is unset, and it is the only failing
operation: `draw` always succeeds with its output line. -/
theorem getDistance_error_iff_unset :
    ∀ p q : Point,
      (getDistance p q = Except.error JsError.invalidOperandError ↔
        p.x = none ∨ p.y = none ∨ q.x = none ∨ q.y = none) ∧
      (drawRun p).2 = Except.ok (draw p) := by
  intro p q
  obtain ⟨px, py⟩ := p
  obtain ⟨qx, qy⟩ := q
  refine ⟨?_, rfl⟩
  cases px <;> cases py <;> cases qx <;> cases qy <;>
    simp [getDistance, JsError.invalidOperandError.sizeOf_spec]

/-- C3: for all numeric pairs `(a, b)`, constructing a point with `(a, b)` and
drawing it writes exactly the one line `X: a, Y: b` with the numeric values
interpolated; in particular, drawing the point `(1, 2)` produces
`X: 1, Y: 2`. -/
theorem draw_interpolates_coordinates :
    (∀ a b : ℚ,
      draw (mkPoint (some a) (some b)) =
        "X: " ++ jsNumToString a ++ ", Y: " ++ jsNumToString b) ∧
    draw (mkPoint (some 1) (some 2)) = "X: 1, Y: 2" := by
  refine ⟨fun a b => rfl, ?_⟩
  decide

/-- C4: the distance operation is symmetric on fully-specified points. -/
theorem getDistance_symm :
    ∀ x1 y1 x2 y2 : ℚ,
      getDistance (mkPoint (some x1) (some y1)) (mkPoint (some x2) (some y2)) =
      getDistance (mkPoint (some x2) (some y2)) (mkPoint (some x1) (some y1)) := by
  intro x1 y1 x2 y2
  show Except.ok _ = Except.ok _
  congr 1
  ring_nf

/-- C5: the distance from a fully-specified point to itself is zero. -/
theorem getDistance_self_eq_zero :
    ∀ x y : ℚ,
      getDistance (mkPoint (some x) (some y)) (mkPoint (some x) (some y)) =
        Except.ok (0 : ℝ) := by
  intro x y
  show Except.ok _ = Except.ok _
  congr 1
  simp

/-- C6: constructing a point with no arguments leaves both coordinates unset
(`none`), a state distinct from a supplied zero, and drawing that point yields
exactly `X: undefined, Y: undefined`. -/
theorem mkPoint_no_args_unset :
    (mkPoint none none).x = none ∧ (mkPoint none none).y = none ∧
    (mkPoint none none).x ≠ some 0 ∧ (mkPoint none none).y ≠ some 0 ∧
    draw (mkPoint none none) = "X: undefined, Y: undefined" := by
  refine ⟨rfl, rfl, ?_, ?_, by decide⟩ <;> simp [mkPoint]

/-- C7: construction is total for every combination of zero, one, or two
numeric arguments — it always yields the point carrying exactly the supplied
coordinates — and `draw` is total as well, always succeeding with a string. -/
theorem mkPoint_and_draw_total :
    ∀ x y : Option ℚ,
      (mkPoint x y).x = x ∧ (mkPoint x y).y = y ∧
      (drawRun (mkPoint x y)).2 = Except.ok (draw (mkPoint x y)) := by
  intro x y
  exact ⟨rfl, rfl, rfl⟩

/-- C8: points are immutable: running `draw` leaves the receiver unchanged,
and running `getDistance` leaves both the receiver and the argument
unchanged. -/
theorem point_immutable :
    ∀ p q : Point,
      (drawRun p).1 = p ∧ (getDistanceRun p q).1 = (p, q) := by
  intro p q
  exact ⟨rfl, rfl⟩

/-- C9: constructing a point with exactly one argument `a` sets `x` to `a` and
leaves `y` unset, and drawing it yields exactly `X: a, Y: undefined`; in
particular for `a = 1` it yields `X: 1, Y: undefined`. -/
theorem mkPoint_one_arg :
    (∀ a : ℚ,
      (mkPoint (some a) none).x = some a ∧ (mkPoint (some a) none).y = none ∧
      draw (mkPoint (some a) none) = "X: " ++ jsNumToString a ++ ", Y: undefined") ∧
    draw (mkPoint (some 1) none) = "X: 1, Y: undefined" := by
  refine ⟨fun a => ⟨rfl, rfl, ?_⟩, by decide⟩
  show "X: " ++ jsNumToString a ++ ", Y: " ++ "undefined" = _
  rw [String.append_assoc]
  rfl

/-- C10: `calculateTax income taxYear` returns `income * 1.2` when
`taxYear < 2022` and `income * 1.3` otherwise, and with the `taxYear`
argument omitted the default `2022` applies, giving `income * 1.3`. -/
theorem calculateTax_spec :
    ∀ income taxYear : ℚ,
      (taxYear < 2022 → calculateTax income taxYear = income * 1.2) ∧
      (¬ taxYear < 2022 → calculateTax income taxYear = income * 1.3) ∧
      calculateTaxDefault income = income * 1.3 := by
  intro income taxYear
  refine ⟨fun h => ?_, fun h => ?_, ?_⟩
  · simp [calculateTax, h]
  · simp [calculateTax, h]
  · simp [calculateTaxDefault, calculateTax]

/-- C10 witness: concrete evaluations of `calculateTax` on both branches and
of the defaulted call. -/
theorem calculateTax_spec_witness :
    calculateTax 100 2021 = 100 * 1.2 ∧
    calculateTax 100 2022 = 100 * 1.3 ∧
    calculateTaxDefault 100 = 100 * 1.3 :=
  ⟨(calculateTax_spec 100 2021).1 (by norm_num),
   (calculateTax_spec 100 2022).2.1 (by norm_num),
   (calculateTax_spec 100 2022).2.2⟩

end RoRTs
